import Mathlib

/-!
Shallow embedding of `src/oic/utils/rp/__init__.py` (the OpenID Connect
relying-party helper of pyoidc): the `Client.callback` validation pipeline,
the `OIDCClients` registry with its `create_client` provisioning dispatch,
`get_path` path indexing, `dynamic_client` provisioning, and `__getitem__`
resolution.

Python dictionaries are modelled as association lists (`lookupD`, `assocSet`);
network interactions (webfinger discovery, provider-configuration fetch,
client registration, token-endpoint and userinfo requests — all performed by
the external `oic` protocol library / transport) are modelled as oracles
supplied as inputs, and the network requests actually issued by a run are
recorded in an explicit call trace.  A Python exception escaping the function
is an explicit outcome constructor.  `hashlib.sha256(...).hexdigest()` over
UTF-8 bytes is modelled as an abstract parameter `sha256hex : String → String`
(UTF-8 encoding is a homomorphism for concatenation, so
`sha256(seed_bytes + issuer.encode("utf8"))` is `sha256hex (seed ++ issuer)`).
-/

namespace PyoidcRP

/-- Python dict lookup `m[k]` returning `none` for a missing key. -/
def lookupD {α : Type} : List (String × α) → String → Option α
  | [], _ => none
  | (k', v) :: rest, k => if k' = k then some v else lookupD rest k

/-- Python dict item assignment `m[k] = v` (replace if present, else append). -/
def assocSet {α : Type} : List (String × α) → String → α → List (String × α)
  | [], k, v => [(k, v)]
  | (k', v') :: rest, k, v =>
      if k' = k then (k, v) :: rest else (k', v') :: assocSet rest k v

/-- Python `dict.update`: apply every assignment of `upd` to `m` in order. -/
def dictUpdate {α : Type} (m upd : List (String × α)) : List (String × α) :=
  upd.foldl (fun acc p => assocSet acc p.1 p.2) m

/-- An ID token as the pipeline reads it: the claims `iss`, `sub`, `nonce`
and the JWS header algorithm (`jws_header['alg']`). -/
structure IdToken where
  iss : String
  sub : String
  nonce : String
  alg : String
deriving DecidableEq

/-- The client's stored registration data (`registration_response`):
`redirect_uris` and `token_endpoint_auth_method`. -/
structure RegistrationData where
  redirect_uris : List String
  token_endpoint_auth_method : String
deriving DecidableEq

/-- State of one `Client` instance as read and written by the embedded code.
`behaviour` is the Python dict of request defaults; `id_token` is the
per-state ID-token cache, `none` while the attribute is not yet a dict
(the `except TypeError` branch of the caching code). -/
structure Client where
  client_id : String
  client_secret : String
  behaviour : List (String × String)
  registration_response : RegistrationData
  provider_info_issuer : String
  userinfo_request_method : String
  allow_sign_alg_none : Bool
  id_token : Option (List (String × IdToken))
deriving DecidableEq

/-- The caller-owned per-attempt session: `session["state"]` and
`session["nonce"]`. -/
structure Session where
  state : String
  nonce : String
deriving DecidableEq

/-- A parsed (non-error) authorization response: `state`, the optional
front-channel `id_token`, and the optional authorization `code`. -/
structure AuthResponse where
  state : String
  id_token : Option IdToken
  code : Option String
deriving DecidableEq

/-- Result of `parse_response` on the raw callback input: either an
`ErrorResponse` carrying the OP's `error` code, or a parsed response. -/
inductive ParseResult where
  | err (error : String)
  | ok (resp : AuthResponse)
deriving DecidableEq

/-- What the token endpoint would answer (`do_access_token_request`): an
`ErrorResponse` with an error code, or a token response whose `id_token`
entry may be absent. -/
inductive TokenResp where
  | err (error : String)
  | ok (id_token : Option IdToken)
deriving DecidableEq

/-- A userinfo document: its `sub` plus the remaining claims. -/
structure Userinfo where
  sub : String
  claims : List (String × String)
deriving DecidableEq

/-- What the userinfo endpoint would answer (`do_user_info_request`). -/
inductive UserinfoResp where
  | err (error : String)
  | ok (info : Userinfo)
deriving DecidableEq

/-- A network request issued by the callback pipeline, with the arguments
the code passes: the token-endpoint exchange and the userinfo fetch. -/
inductive NetCall where
  | tokenReq (state code redirectUri clientId clientSecret authnMethod : String)
  | userinfoReq (state method : String)
deriving DecidableEq

/-- Terminal outcome of `Client.callback`: a fresh authorization redirect
(`login_required`), an `OIDCError` RETURNED as a value, an `OIDCError`
RAISED, a non-`OIDCError` Python exception (`KeyError`/`IndexError`)
escaping, or the success pair `(user_id, userinfo)`. -/
inductive Outcome where
  | redirect
  | errorValue (msg : String)
  | raised (msg : String)
  | exc (msg : String)
  | success (userId : String) (info : Userinfo)
deriving DecidableEq

/-- Store `tok` in the client's ID-token cache under key `st`
(`self.id_token[state] = tok`, creating the dict on `TypeError`). -/
def Client.cacheIdToken (c : Client) (st : String) (tok : IdToken) : Client :=
  match c.id_token with
  | some m => { c with id_token := some (assocSet m st tok) }
  | none => { c with id_token := some [(st, tok)] }

/-- Tail of the pipeline, from the ID-token presence check (line 129) to the
subject-consistency check and success: issuer check, nonce re-check,
signature-algorithm gate, user-id construction, userinfo fetch, subject
comparison. -/
def callbackFinish (c : Client) (session : Session) (ar : AuthResponse)
    (idtok : Option IdToken) (ui : UserinfoResp) : Outcome × List NetCall × Client :=
  match idtok with
  | none => (.raised "Invalid response: no IdToken", [], c)
  | some tok =>
    if tok.iss ≠ c.provider_info_issuer then (.raised "Issuer mismatch", [], c)
    else if tok.nonce ≠ session.nonce then (.raised "Nonce missmatch", [], c)
    else if c.allow_sign_alg_none = false ∧ tok.alg = "none" then
      (.raised "Do not allow \"none\" signature algorithm", [], c)
    else
      let uiCall := NetCall.userinfoReq ar.state c.userinfo_request_method
      match ui with
      | .err e => (.raised ("Invalid response " ++ e ++ "."), [uiCall], c)
      | .ok info =>
        if tok.sub ≠ info.sub then
          (.raised "Invalid response: userid mismatch", [uiCall], c)
        else
          (.success (tok.iss ++ ":" ++ tok.sub) info, [uiCall], c)

/-- Middle of the pipeline: the conditional code exchange (lines 100–127)
followed by `callbackFinish`.  `front` is the `_id_token` variable after the
front-channel step; the exchange replaces it (and the cache entry) with the
token from the access-token response, where a successful response with no
`id_token` entry makes `atresp['id_token']` raise `KeyError`. -/
def callbackExchange (c : Client) (session : Session) (ar : AuthResponse)
    (front : Option IdToken) (tr : TokenResp) (ui : UserinfoResp) :
    Outcome × List NetCall × Client :=
  match lookupD c.behaviour "response_type" with
  | none => (.exc "KeyError: response_type", [], c)
  | some rt =>
    if rt = "code" then
      match ar.code with
      | none => (.exc "KeyError: code", [], c)
      | some cd =>
        match c.registration_response.redirect_uris with
        | [] => (.exc "IndexError: redirect_uris", [], c)
        | r0 :: _ =>
          let call := NetCall.tokenReq ar.state cd r0 c.client_id c.client_secret
            c.registration_response.token_endpoint_auth_method
          match tr with
          | .err e => (.raised ("Invalid response " ++ e ++ "."), [call], c)
          | .ok none => (.exc "KeyError: id_token", [call], c)
          | .ok (some tok) =>
            let c2 := c.cacheIdToken ar.state tok
            let r := callbackFinish c2 session ar (some tok) ui
            (r.1, call :: r.2.1, r.2.2)
    else
      callbackFinish c session ar front ui

/-- The full `Client.callback` pipeline on an already-parsed response:
OP-error handling, the state check, the front-channel ID-token step, then
`callbackExchange`.  Returns the outcome, the network requests issued, and
the updated client. -/
def Client.callback (c : Client) (session : Session) (parsed : ParseResult)
    (tr : TokenResp) (ui : UserinfoResp) : Outcome × List NetCall × Client :=
  match parsed with
  | .err e =>
    if e = "login_required" then (.redirect, [], c)
    else (.errorValue "Access denied", [], c)
  | .ok ar =>
    if session.state ≠ ar.state then
      (.errorValue "Received state not the same as expected.", [], c)
    else
      match ar.id_token with
      | none => callbackExchange c session ar none tr ui
      | some tok =>
        if tok.nonce ≠ session.nonce then
          (.errorValue "Received nonce not the same as expected.", [], c)
        else
          callbackExchange (c.cacheIdToken ar.state tok) session ar (some tok) tr ui

/-- The path component of a URL as `urllib.parse.urlsplit(uri).path` yields
it for hierarchical URLs, on a character list: if the string contains `://`,
the path starts at the first `/` after it and stops at `?` or `#`; without a
scheme separator the whole string up to `?` or `#` is the path. -/
def afterSchemeAux : List Char → Option (List Char)
  | ':' :: '/' :: '/' :: rest => some rest
  | _ :: rest => afterSchemeAux rest
  | [] => none

/-- Character-list model of `urlsplit(uri).path` for hierarchical URLs. -/
def urlPath (uri : String) : String :=
  let cs := uri.toList
  match afterSchemeAux cs with
  | some rest =>
      String.mk ((rest.dropWhile (fun c => ¬ (c = '/' ∨ c = '?' ∨ c = '#'))).takeWhile
        (fun c => ¬ (c = '?' ∨ c = '#')))
  | none => String.mk (cs.takeWhile (fun c => ¬ (c = '?' ∨ c = '#')))

/-- Python string slice `s[1:]`. -/
def pyDrop1 (s : String) : String := String.mk (s.toList.drop 1)

/-- The registry's `get_path`: for each redirect URI, map the URI's path with
its first character removed (`urlsplit(ruri).path[1:]`) to `issuer` in the
path index. -/
def get_path (path : List (String × String)) (redirect_uris : List String)
    (issuer : String) : List (String × String) :=
  redirect_uris.foldl (fun m ruri => assocSet m (pyDrop1 (urlPath ruri)) issuer) path

/-- Registration request data under a `client_info` key: the redirect-URI
list plus the other registration parameters, kept abstract. -/
structure ClientInfo where
  redirect_uris : List String
  extraFields : List (String × String)
deriving DecidableEq

/-- A supplied `provider_info` configuration value: its `issuer` and its
optional `registration_endpoint` entry. -/
structure ProviderInfoConf where
  issuer : String
  registration_endpoint : Option String
deriving DecidableEq

/-- Provider metadata as fetched by the protocol library's
`provider_config`: issuer and registration endpoint. -/
structure ProviderInfoResp where
  issuer : String
  registration_endpoint : String
deriving DecidableEq

/-- A registration response from the OP: credentials plus the stored
registration data. -/
structure RegisterResp where
  client_id : String
  client_secret : String
  registration : RegistrationData
deriving DecidableEq

/-- Oracle for the network operations the registry performs through the
external protocol library: webfinger discovery, provider-configuration
fetch, and dynamic registration. -/
structure Web where
  discovery : String → String
  providerConfig : String → ProviderInfoResp
  register : String → ClientInfo → RegisterResp

/-- A network request issued during provisioning. -/
inductive RCall where
  | webfinger (userid : String)
  | providerConfig (url : String)
  | register (endpoint : String) (args : ClientInfo)
deriving DecidableEq

/-- One static client configuration (`**kwargs` of `create_client`): each
recognized key as an optional value, plus any unrecognized keys. -/
structure ClientConf where
  behaviour : Option (List (String × String))
  verify_ssl : Option Bool
  userinfo_request_method : Option String
  allow : Option Unit
  client_info : Option ClientInfo
  srv_discovery_url : Option String
  provider_info : Option ProviderInfoConf
  client_registration : Option RegistrationData
  extraKeys : List String

/-- Terminal outcome of `create_client`: a provisioned client, a `KeyError`
on a missing dict key, a `TypeError` (duplicate `verify_ssl` keyword), the
`MissingAttribute` error, or the catch-all configuration error. -/
inductive CreateOutcome where
  | ok (c : Client)
  | keyErr (key : String)
  | typeErr (msg : String)
  | missingAttr (msg : String)
  | configErr (msg : String)
deriving DecidableEq

/-- The `create_client` provisioning dispatch.  `kwargs["behaviour"]` is read
while building the constructor call, so a missing `behaviour` is a
`KeyError`; a `verify_ssl` key is also passed positionally by the
constructor call and so raises `TypeError`.  The remaining key set (after
discarding the pass-through keys) selects one of five strategies; in the two
`client_registration` strategies the final `get_path` call reads
`kwargs['client_info']`, a key those branches guarantee to be absent, so
they raise `KeyError('client_info')`.  Returns the outcome, the network
calls issued, and the updated path index. -/
def create_client (web : Web) (path : List (String × String)) (userid : String)
    (conf : ClientConf) : CreateOutcome × List RCall × List (String × String) :=
  match conf.behaviour with
  | none => (.keyErr "behaviour", [], path)
  | some beh =>
    if conf.verify_ssl.isSome then
      (.typeErr "multiple values for keyword argument verify_ssl", [], path)
    else
      let baseClient : Client :=
        { client_id := "", client_secret := "", behaviour := beh,
          registration_response := { redirect_uris := [], token_endpoint_auth_method := "" },
          provider_info_issuer := "",
          userinfo_request_method := conf.userinfo_request_method.getD "",
          allow_sign_alg_none := false, id_token := none }
      match conf.client_info, conf.srv_discovery_url, conf.provider_info,
            conf.client_registration, conf.extraKeys with
      | some cinfo, none, none, none, [] =>
        if userid = "" then (.missingAttr "Missing userid specification", [], path)
        else
          let issuer := web.discovery userid
          let pcr := web.providerConfig issuer
          let ro := web.register pcr.registration_endpoint cinfo
          (.ok { baseClient with
                   client_id := ro.client_id
                   client_secret := ro.client_secret
                   registration_response := ro.registration
                   provider_info_issuer := pcr.issuer },
           [.webfinger userid, .providerConfig issuer,
            .register pcr.registration_endpoint cinfo],
           get_path path cinfo.redirect_uris issuer)
      | some cinfo, some durl, none, none, [] =>
        let pcr := web.providerConfig durl
        let ro := web.register pcr.registration_endpoint cinfo
        (.ok { baseClient with
                 client_id := ro.client_id
                 client_secret := ro.client_secret
                 registration_response := ro.registration
                 provider_info_issuer := pcr.issuer },
         [.providerConfig durl, .register pcr.registration_endpoint cinfo],
         get_path path cinfo.redirect_uris durl)
      | some cinfo, none, some pinfo, none, [] =>
        match pinfo.registration_endpoint with
        | none => (.keyErr "registration_endpoint", [], path)
        | some rend =>
          let ro := web.register rend cinfo
          (.ok { baseClient with
                   client_id := ro.client_id
                   client_secret := ro.client_secret
                   registration_response := ro.registration
                   provider_info_issuer := pinfo.issuer },
           [.register rend cinfo],
           get_path path cinfo.redirect_uris pinfo.issuer)
      | none, none, some _pinfo, some _creg, [] =>
        (.keyErr "client_info", [], path)
      | none, some durl, none, some _creg, [] =>
        let _pcr := web.providerConfig durl
        (.keyErr "client_info", [.providerConfig durl], path)
      | _, _, _, _, _ => (.configErr "Configuration error ?", [], path)

/-- Python `str.format` restricted to the named fields `base` and `iss`,
scanning left to right once, with a fuel argument bounding the number of
processed characters (called with the input length, which suffices since
every step consumes at least one character). -/
def pyFormatAux (base iss : List Char) : Nat → List Char → List Char
  | 0, cs => cs
  | _ + 1, [] => []
  | n + 1, c :: rest =>
    if c = '\x7b' then
      let field := rest.takeWhile (fun d => ¬ d = '\x7d')
      let rest2 := (rest.dropWhile (fun d => ¬ d = '\x7d')).drop 1
      (if field = "base".toList then base
       else if field = "iss".toList then iss
       else '\x7b' :: (field ++ ['\x7d'])) ++ pyFormatAux base iss n rest2
    else c :: pyFormatAux base iss n rest

/-- `template.format(base=base, iss=iss)` for the redirect-URI templates. -/
def pyFormatBaseIss (template base iss : String) : String :=
  String.mk (pyFormatAux base.toList iss.toList template.toList.length template.toList)

/-- State of an `OIDCClients` registry: the issuer-keyed client dict, the
UTF-8 seed bytes, the path index, the base URL, and the default (`""`-keyed)
client profile's `client_info` and `behaviour` entries from
`config.CLIENTS` (each `none` when the profile or the entry is absent). -/
structure OIDCClients where
  client : List (String × Client)
  seed : String
  path : List (String × String)
  base_url : String
  defaultClientInfo : Option ClientInfo
  defaultBehaviour : Option (List (String × String))

/-- Outcome of a registry resolution. -/
inductive DynOutcome where
  | ok (c : Client)
  | keyErr (key : String)
deriving DecidableEq

/-- The registry's `dynamic_client`: webfinger discovery, the cached-issuer
fast path, and otherwise provider-configuration fetch, deterministic
redirect-URI derivation from the default profile
(`u.format(base=base_url, iss=sha256(seed + issuer).hexdigest())`),
path recording, registration, behaviour merge, and registry insertion. -/
def OIDCClients.dynamic_client (sha256hex : String → String) (web : Web)
    (reg : OIDCClients) (userid : String) : DynOutcome × List RCall × OIDCClients :=
  let issuer := web.discovery userid
  match lookupD reg.client issuer with
  | some c => (.ok c, [.webfinger userid], reg)
  | none =>
    let pcr := web.providerConfig issuer
    match reg.defaultClientInfo with
    | none => (.keyErr "client_info", [.webfinger userid, .providerConfig issuer], reg)
    | some cinfo =>
      let tag := sha256hex (reg.seed ++ issuer)
      let ruris := cinfo.redirect_uris.map (fun u => pyFormatBaseIss u reg.base_url tag)
      let regArgs : ClientInfo := { cinfo with redirect_uris := ruris }
      let path2 := get_path reg.path ruris issuer
      let ro := web.register pcr.registration_endpoint regArgs
      let beh := match reg.defaultBehaviour with
                 | some b => dictUpdate [] b
                 | none => []
      let c : Client :=
        { client_id := ro.client_id, client_secret := ro.client_secret,
          behaviour := beh, registration_response := ro.registration,
          provider_info_issuer := pcr.issuer, userinfo_request_method := "",
          allow_sign_alg_none := false, id_token := none }
      (.ok c,
       [.webfinger userid, .providerConfig issuer,
        .register pcr.registration_endpoint regArgs],
       { reg with path := path2, client := assocSet reg.client issuer c })

/-- The registry's `__getitem__`: return the cached client for `item`, else
fall back to `dynamic_client`. -/
def OIDCClients.getitem (sha256hex : String → String) (web : Web)
    (reg : OIDCClients) (item : String) : DynOutcome × List RCall × OIDCClients :=
  match lookupD reg.client item with
  | some c => (.ok c, [], reg)
  | none => reg.dynamic_client sha256hex web item

/-- The redirect-URI derivation as the specification words it: substitute
the registry's base URL and the per-issuer tag `hex(SHA-256(seed ++ issuer))`
into each template URI of the default client profile. -/
def deriveRedirectUrisSpec (sha256hex : String → String)
    (seed issuer base_url : String) (templates : List String) : List String :=
  templates.map (fun u => pyFormatBaseIss u base_url (sha256hex (seed ++ issuer)))

/-- Redirect-URI argument lists of the registration calls in a trace. -/
def registeredUris : List RCall → List (List String)
  | [] => []
  | .register _ args :: rest => args.redirect_uris :: registeredUris rest
  | _ :: rest => registeredUris rest

/-- Whether a callback network request is a token-endpoint exchange. -/
def NetCall.isTokenReq : NetCall → Bool
  | .tokenReq _ _ _ _ _ _ => true
  | .userinfoReq _ _ => false

/-! Helper lemmas about the dictionary model and the pipeline pieces. -/

theorem lookupD_assocSet_self {α : Type} (m : List (String × α)) (k : String) (v : α) :
    lookupD (assocSet m k v) k = some v := by
  induction m with
  | nil => simp [assocSet, lookupD]
  | cons p rest ih =>
    obtain ⟨k', v'⟩ := p
    by_cases h : k' = k
    · simp [assocSet, h, lookupD]
    · simp [assocSet, h, lookupD, ih]

theorem lookupD_assocSet_ne {α : Type} (m : List (String × α)) (k k' : String) (v : α)
    (h : k' ≠ k) : lookupD (assocSet m k v) k' = lookupD m k' := by
  induction m with
  | nil => simp [assocSet, lookupD, Ne.symm h]
  | cons p rest ih =>
    obtain ⟨k'', v''⟩ := p
    by_cases hk : k'' = k
    · subst hk
      simp [assocSet, lookupD, Ne.symm h]
    · simp [assocSet, hk, lookupD, ih]

@[simp] theorem cacheIdToken_behaviour (c : Client) (st : String) (tok : IdToken) :
    (c.cacheIdToken st tok).behaviour = c.behaviour := by
  cases h : c.id_token <;> simp [Client.cacheIdToken, h]

@[simp] theorem cacheIdToken_registration (c : Client) (st : String) (tok : IdToken) :
    (c.cacheIdToken st tok).registration_response = c.registration_response := by
  cases h : c.id_token <;> simp [Client.cacheIdToken, h]

@[simp] theorem cacheIdToken_issuer (c : Client) (st : String) (tok : IdToken) :
    (c.cacheIdToken st tok).provider_info_issuer = c.provider_info_issuer := by
  cases h : c.id_token <;> simp [Client.cacheIdToken, h]

@[simp] theorem cacheIdToken_client_id (c : Client) (st : String) (tok : IdToken) :
    (c.cacheIdToken st tok).client_id = c.client_id := by
  cases h : c.id_token <;> simp [Client.cacheIdToken, h]

@[simp] theorem cacheIdToken_client_secret (c : Client) (st : String) (tok : IdToken) :
    (c.cacheIdToken st tok).client_secret = c.client_secret := by
  cases h : c.id_token <;> simp [Client.cacheIdToken, h]

@[simp] theorem cacheIdToken_uirm (c : Client) (st : String) (tok : IdToken) :
    (c.cacheIdToken st tok).userinfo_request_method = c.userinfo_request_method := by
  cases h : c.id_token <;> simp [Client.cacheIdToken, h]

@[simp] theorem cacheIdToken_allow_none (c : Client) (st : String) (tok : IdToken) :
    (c.cacheIdToken st tok).allow_sign_alg_none = c.allow_sign_alg_none := by
  cases h : c.id_token <;> simp [Client.cacheIdToken, h]

theorem cacheIdToken_lookup (c : Client) (st : String) (tok : IdToken) :
    ∃ m, (c.cacheIdToken st tok).id_token = some m ∧ lookupD m st = some tok := by
  cases h : c.id_token with
  | none => exact ⟨[(st, tok)], by simp [Client.cacheIdToken, h, lookupD]⟩
  | some m => exact ⟨assocSet m st tok, by simp [Client.cacheIdToken, h, lookupD_assocSet_self]⟩

theorem get_path_cons (path : List (String × String)) (u : String) (us : List String)
    (issuer : String) :
    get_path path (u :: us) issuer =
      get_path (assocSet path (pyDrop1 (urlPath u)) issuer) us issuer := rfl

theorem get_path_lookup (uris : List String) (issuer : String)
    (path : List (String × String)) (k : String) :
    lookupD (get_path path uris issuer) k =
      if k ∈ uris.map (fun u => pyDrop1 (urlPath u)) then some issuer
      else lookupD path k := by
  induction uris generalizing path with
  | nil => simp [get_path]
  | cons u us ih =>
    rw [get_path_cons, ih]
    by_cases hmem : k ∈ us.map (fun u => pyDrop1 (urlPath u))
    · simp [hmem]
    · by_cases hk : k = pyDrop1 (urlPath u)
      · simp [hmem, hk, lookupD_assocSet_self]
      · simp [hmem, hk, lookupD_assocSet_ne _ _ _ _ hk]

/-- The message of the signature-algorithm gate. -/
def algNoneMsg : String := "Do not allow \"none\" signature algorithm"

theorem invalid_response_ne_algNoneMsg (e : String) :
    "Invalid response " ++ e ++ "." ≠ algNoneMsg := by
  intro h
  have h2 : ("Invalid response " ++ e ++ ".").data.head? = algNoneMsg.data.head? := by
    rw [h]
  simp [String.data_append, algNoneMsg] at h2

theorem callbackFinish_success_inv (c : Client) (s : Session) (ar : AuthResponse)
    (idtok : Option IdToken) (ui : UserinfoResp) (uid : String) (info : Userinfo)
    (calls : List NetCall) (c2 : Client)
    (h : callbackFinish c s ar idtok ui = (.success uid info, calls, c2)) :
    ∃ tok, idtok = some tok ∧ tok.nonce = s.nonce ∧ c2 = c := by
  cases idtok with
  | none => simp [callbackFinish] at h
  | some tok =>
    refine ⟨tok, rfl, ?_⟩
    simp only [callbackFinish] at h
    split_ifs at h with h1 h2 h3
    · simp at h
    · simp at h
    · simp at h
    · cases ui with
      | err e => simp at h
      | ok info2 =>
        dsimp only at h
        split_ifs at h with h4
        · simp at h
        · simp only [Prod.mk.injEq] at h
          exact ⟨not_not.mp h2, h.2.2.symm⟩

theorem callbackFinish_ne_errorValue (c : Client) (s : Session) (ar : AuthResponse)
    (idtok : Option IdToken) (ui : UserinfoResp) (msg : String) :
    (callbackFinish c s ar idtok ui).1 ≠ .errorValue msg := by
  cases idtok with
  | none => simp [callbackFinish]
  | some tok =>
    simp only [callbackFinish]
    split_ifs <;> try simp
    cases ui with
    | err e => simp
    | ok info2 =>
      dsimp only
      split_ifs <;> simp

theorem callbackFinish_calls_sub (c : Client) (s : Session) (ar : AuthResponse)
    (idtok : Option IdToken) (ui : UserinfoResp) :
    (callbackFinish c s ar idtok ui).2.1 = [] ∨
    (callbackFinish c s ar idtok ui).2.1 =
      [.userinfoReq ar.state c.userinfo_request_method] := by
  cases idtok with
  | none => left; rfl
  | some tok =>
    simp only [callbackFinish]
    split_ifs <;> try (left; rfl)
    cases ui with
    | err e => right; rfl
    | ok info2 =>
      dsimp only
      split_ifs <;> (right; rfl)

theorem callbackFinish_raised_algNone_inv (c : Client) (s : Session) (ar : AuthResponse)
    (idtok : Option IdToken) (ui : UserinfoResp) (calls : List NetCall) (c2 : Client)
    (h : callbackFinish c s ar idtok ui = (.raised algNoneMsg, calls, c2)) :
    c.allow_sign_alg_none = false ∧ c2 = c ∧
      ∃ tok, idtok = some tok ∧ tok.alg = "none" := by
  cases idtok with
  | none =>
    exfalso
    simp only [callbackFinish, Prod.mk.injEq, Outcome.raised.injEq] at h
    exact absurd h.1 (by decide)
  | some tok =>
    simp only [callbackFinish] at h
    split_ifs at h with h1 h2 h3
    · exfalso
      simp only [Prod.mk.injEq, Outcome.raised.injEq] at h
      exact absurd h.1 (by decide)
    · exfalso
      simp only [Prod.mk.injEq, Outcome.raised.injEq] at h
      exact absurd h.1 (by decide)
    · simp only [Prod.mk.injEq] at h
      exact ⟨h3.1, h.2.2.symm, tok, rfl, h3.2⟩
    · cases ui with
      | err e =>
        exfalso
        simp only [Prod.mk.injEq, Outcome.raised.injEq] at h
        exact invalid_response_ne_algNoneMsg e h.1
      | ok info2 =>
        exfalso
        dsimp only at h
        split_ifs at h with h4
        · simp only [Prod.mk.injEq, Outcome.raised.injEq] at h
          exact absurd h.1 (by decide)
        · simp at h

theorem callbackExchange_success_inv (c : Client) (s : Session) (ar : AuthResponse)
    (front : Option IdToken) (tr : TokenResp) (ui : UserinfoResp) (uid : String)
    (info : Userinfo) (calls : List NetCall) (c2 : Client)
    (h : callbackExchange c s ar front tr ui = (.success uid info, calls, c2)) :
    (∃ tok, tr = .ok (some tok) ∧ tok.nonce = s.nonce ∧
      c2 = c.cacheIdToken ar.state tok) ∨
    (∃ tok, front = some tok ∧ tok.nonce = s.nonce ∧ c2 = c) := by
  unfold callbackExchange at h
  rcases hrt : lookupD c.behaviour "response_type" with _ | rt <;> rw [hrt] at h
  · simp at h
  · dsimp only at h
    split_ifs at h with hcode
    · rcases hcd : ar.code with _ | cd <;> rw [hcd] at h
      · simp at h
      · dsimp only at h
        rcases hr : c.registration_response.redirect_uris with _ | ⟨r0, rs⟩ <;>
          rw [hr] at h
        · simp at h
        · dsimp only at h
          rcases tr with e | tok'
          · simp at h
          · rcases tok' with _ | tok
            · simp at h
            · dsimp only at h
              simp only [Prod.mk.injEq] at h
              have hfin : callbackFinish (c.cacheIdToken ar.state tok) s ar
                  (some tok) ui =
                  (.success uid info,
                   (callbackFinish (c.cacheIdToken ar.state tok) s ar (some tok) ui).2.1,
                   c2) := by
                refine Prod.ext h.1 (Prod.ext rfl ?_)
                exact h.2.2
              obtain ⟨tok2, htok2, hn, hc⟩ :=
                callbackFinish_success_inv _ _ _ _ _ _ _ _ _ hfin
              obtain rfl : tok = tok2 := by simpa using htok2
              exact Or.inl ⟨tok, rfl, hn, hc⟩
    · obtain ⟨tok, htok, hn, hc⟩ := callbackFinish_success_inv _ _ _ _ _ _ _ _ _ h
      exact Or.inr ⟨tok, htok, hn, hc⟩

theorem callbackExchange_ne_errorValue (c : Client) (s : Session) (ar : AuthResponse)
    (front : Option IdToken) (tr : TokenResp) (ui : UserinfoResp) (msg : String) :
    (callbackExchange c s ar front tr ui).1 ≠ .errorValue msg := by
  unfold callbackExchange
  rcases hrt : lookupD c.behaviour "response_type" with _ | rt
  · simp
  · dsimp only
    split_ifs with hcode
    · rcases hcd : ar.code with _ | cd
      · simp
      · dsimp only
        rcases hr : c.registration_response.redirect_uris with _ | ⟨r0, rs⟩
        · simp
        · dsimp only
          rcases tr with e | tok'
          · simp
          · rcases tok' with _ | tok
            · simp
            · exact callbackFinish_ne_errorValue _ _ _ _ _ _
    · exact callbackFinish_ne_errorValue _ _ _ _ _ _

theorem callbackExchange_raised_algNone_inv (c : Client) (s : Session)
    (ar : AuthResponse) (front : Option IdToken) (tr : TokenResp) (ui : UserinfoResp)
    (calls : List NetCall) (c2 : Client)
    (h : callbackExchange c s ar front tr ui = (.raised algNoneMsg, calls, c2)) :
    c.allow_sign_alg_none = false ∧
    ((∃ tok, tr = .ok (some tok) ∧ tok.alg = "none" ∧
        c2 = c.cacheIdToken ar.state tok) ∨
     (∃ tok, front = some tok ∧ tok.alg = "none" ∧ c2 = c)) := by
  unfold callbackExchange at h
  rcases hrt : lookupD c.behaviour "response_type" with _ | rt <;> rw [hrt] at h
  · simp at h
  · dsimp only at h
    split_ifs at h with hcode
    · rcases hcd : ar.code with _ | cd <;> rw [hcd] at h
      · simp at h
      · dsimp only at h
        rcases hr : c.registration_response.redirect_uris with _ | ⟨r0, rs⟩ <;>
          rw [hr] at h
        · simp at h
        · dsimp only at h
          rcases tr with e | tok'
          · exfalso
            simp only [Prod.mk.injEq, Outcome.raised.injEq] at h
            exact invalid_response_ne_algNoneMsg e h.1
          · rcases tok' with _ | tok
            · simp at h
            · dsimp only at h
              simp only [Prod.mk.injEq] at h
              have hfin : callbackFinish (c.cacheIdToken ar.state tok) s ar
                  (some tok) ui =
                  (.raised algNoneMsg,
                   (callbackFinish (c.cacheIdToken ar.state tok) s ar (some tok) ui).2.1,
                   c2) := by
                refine Prod.ext h.1 (Prod.ext rfl ?_)
                exact h.2.2
              obtain ⟨hallow, hc, tok2, htok2, halg⟩ :=
                callbackFinish_raised_algNone_inv _ _ _ _ _ _ _ hfin
              obtain rfl : tok = tok2 := by simpa using htok2
              refine ⟨by simpa using hallow, Or.inl ⟨tok, rfl, halg, hc⟩⟩
    · obtain ⟨hallow, hc, tok, htok, halg⟩ :=
        callbackFinish_raised_algNone_inv _ _ _ _ _ _ _ h
      exact ⟨hallow, Or.inr ⟨tok, htok, halg, hc⟩⟩

theorem callbackExchange_calls_noToken (c : Client) (s : Session) (ar : AuthResponse)
    (front : Option IdToken) (tr : TokenResp) (ui : UserinfoResp) (rt : String)
    (hrt : lookupD c.behaviour "response_type" = some rt) (hne : rt ≠ "code") :
    ∀ call ∈ (callbackExchange c s ar front tr ui).2.1, call.isTokenReq = false := by
  unfold callbackExchange
  rw [hrt]
  dsimp only
  rw [if_neg hne]
  rcases callbackFinish_calls_sub c s ar front ui with hc | hc <;> rw [hc] <;>
    simp [NetCall.isTokenReq]

/-! Concrete sample data used by witnesses and counterexamples. -/

/-- A statically configured sample client in the code flow. -/
def cSample : Client :=
  { client_id := "CID", client_secret := "CSEC",
    behaviour := [("response_type", "code"), ("scope", "openid")],
    registration_response :=
      { redirect_uris := ["https://rp.example/authz_cb"],
        token_endpoint_auth_method := "client_secret_basic" },
    provider_info_issuer := "https://op.example",
    userinfo_request_method := "", allow_sign_alg_none := false, id_token := none }

/-- A sample session. -/
def sSample : Session := { state := "S1", nonce := "N1" }

/-- An ID token from the sample issuer with the session's nonce. -/
def tokGood : IdToken :=
  { iss := "https://op.example", sub := "sub1", nonce := "N1", alg := "RS256" }

/-- An ID token from the sample issuer with a wrong nonce. -/
def tokBadNonce : IdToken :=
  { iss := "https://op.example", sub := "sub1", nonce := "NX", alg := "RS256" }

/-- A sample userinfo document agreeing with the tokens' subject. -/
def uiSample : Userinfo := { sub := "sub1", claims := [("name", "Jane")] }

/-! Claim C1. -/

/-- C1: for every parsed non-error authorization response whose state differs
from the session's state, `Client.callback` terminates at once with the
state-mismatch `OIDCError` ("Received state not the same as expected."): the
network-call trace is empty (no token-exchange request, no userinfo request)
and the client is unchanged, so no later pipeline check runs. -/
theorem c1_state_mismatch_stops_pipeline (c : Client) (s : Session)
    (ar : AuthResponse) (tr : TokenResp) (ui : UserinfoResp)
    (h : s.state ≠ ar.state) :
    c.callback s (.ok ar) tr ui =
      (.errorValue "Received state not the same as expected.", [], c) := by
  simp [Client.callback, h]

/-- Witness for C1 at a concrete mismatching state pair. -/
theorem c1_state_mismatch_stops_pipeline_witness :
    ("S2" : String) ≠ "S1" ∧
    Client.callback cSample { state := "S2", nonce := "N1" }
        (.ok { state := "S1", id_token := none, code := none }) (.ok none) (.err "x") =
      (.errorValue "Received state not the same as expected.", [], cSample) :=
  ⟨by decide, c1_state_mismatch_stops_pipeline cSample _ _ _ _ (by decide)⟩

/-! Claim C10. -/

/-- C10 counterexample: with matching state and a front-channel ID token whose
nonce differs from the session nonce — a nonce-mismatch failure later in the
pipeline than the OP-error and state checks — `Client.callback` RETURNS an
`OIDCError` value instead of raising one, contradicting the claim that every
failure after the first two raises. -/
theorem c10_counterexample :
    Client.callback cSample sSample
        (.ok { state := "S1", id_token := some tokBadNonce, code := some "AC" })
        (.ok none) (.err "x") =
      (.errorValue "Received nonce not the same as expected.", [], cSample) := by
  decide

/-- C10 (amended): `Client.callback` signals its first THREE failure modes by
returning an `OIDCError` value — an OP error other than `login_required`
returns `OIDCError("Access denied")`, a state mismatch returns an
`OIDCError`, and a front-channel nonce mismatch returns an `OIDCError` —
whereas every other outcome that carries an `OIDCError` is raised: whenever
the result is a returned error value, its message is one of those three and
no network call was made and the client is unchanged. -/
theorem c10_amended_error_value_modes (c : Client) (s : Session) :
    (∀ (e : String) (tr : TokenResp) (ui : UserinfoResp), e ≠ "login_required" →
        c.callback s (.err e) tr ui = (.errorValue "Access denied", [], c))
  ∧ (∀ (ar : AuthResponse) (tr : TokenResp) (ui : UserinfoResp),
        s.state ≠ ar.state →
        c.callback s (.ok ar) tr ui =
          (.errorValue "Received state not the same as expected.", [], c))
  ∧ (∀ (ar : AuthResponse) (tok : IdToken) (tr : TokenResp) (ui : UserinfoResp),
        s.state = ar.state → ar.id_token = some tok → tok.nonce ≠ s.nonce →
        c.callback s (.ok ar) tr ui =
          (.errorValue "Received nonce not the same as expected.", [], c))
  ∧ (∀ (parsed : ParseResult) (tr : TokenResp) (ui : UserinfoResp) (msg : String)
        (calls : List NetCall) (c2 : Client),
        c.callback s parsed tr ui = (.errorValue msg, calls, c2) →
        (msg = "Access denied" ∨
         msg = "Received state not the same as expected." ∨
         msg = "Received nonce not the same as expected.") ∧
        calls = [] ∧ c2 = c) := by
  refine ⟨?_, ?_, ?_, ?_⟩
  · intro e tr ui he
    simp [Client.callback, he]
  · intro ar tr ui hst
    simp [Client.callback, hst]
  · intro ar tok tr ui hst hfr hn
    simp [Client.callback, hst, hfr, hn]
  · intro parsed tr ui msg calls c2 h
    rcases parsed with e | ar
    · by_cases he : e = "login_required"
      · simp [Client.callback, he] at h
      · simp only [Client.callback, if_neg he, Prod.mk.injEq,
          Outcome.errorValue.injEq] at h
        exact ⟨Or.inl h.1.symm, h.2.1.symm, h.2.2.symm⟩
    · by_cases hst : s.state = ar.state
      · rcases hfr : ar.id_token with _ | tok
        · exfalso
          have h1 : (c.callback s (.ok ar) tr ui).1 = .errorValue msg := by
            rw [h]
          simp only [Client.callback, hst, hfr] at h1
          rw [if_neg (by simp)] at h1
          exact callbackExchange_ne_errorValue _ _ _ _ _ _ _ h1
        · by_cases hn : tok.nonce = s.nonce
          · exfalso
            have h1 : (c.callback s (.ok ar) tr ui).1 = .errorValue msg := by
              rw [h]
            simp only [Client.callback, hst, hfr] at h1
            rw [if_neg (by simp)] at h1
            rw [if_neg (by simp [hn])] at h1
            exact callbackExchange_ne_errorValue _ _ _ _ _ _ _ h1
          · simp only [Client.callback, hst, hfr] at h
            rw [if_neg (by simp)] at h
            rw [if_pos (by simpa using hn)] at h
            simp only [Prod.mk.injEq, Outcome.errorValue.injEq] at h
            exact ⟨Or.inr (Or.inr h.1.symm), h.2.1.symm, h.2.2.symm⟩
      · simp only [Client.callback, if_pos (by simpa using hst), Prod.mk.injEq,
          Outcome.errorValue.injEq] at h
        exact ⟨Or.inr (Or.inl h.1.symm), h.2.1.symm, h.2.2.symm⟩

/-- Witness for the amended C10 at concrete inputs for each clause. -/
theorem c10_amended_error_value_modes_witness :
    Client.callback cSample sSample (.err "access_denied") (.ok none) (.err "x") =
      (.errorValue "Access denied", [], cSample) ∧
    Client.callback cSample { state := "S9", nonce := "N1" }
        (.ok { state := "S1", id_token := none, code := none }) (.ok none) (.err "x") =
      (.errorValue "Received state not the same as expected.", [], cSample) ∧
    Client.callback cSample sSample
        (.ok { state := "S1", id_token := some tokBadNonce, code := none })
        (.ok none) (.err "x") =
      (.errorValue "Received nonce not the same as expected.", [], cSample) :=
  ⟨(c10_amended_error_value_modes cSample sSample).1 "access_denied" _ _ (by decide),
   (c10_amended_error_value_modes cSample { state := "S9", nonce := "N1" }).2.1
     _ _ _ (by decide),
   (c10_amended_error_value_modes cSample sSample).2.2.1 _ tokBadNonce _ _
     rfl rfl (by decide)⟩

/-! Claim C2. -/

/-- C2: in every flow where `Client.callback` succeeds, the finally-accepted
ID token — the one cached under the response state in the returned client —
carries the session nonce; a front-channel ID token with a differing nonce is
rejected with the nonce-mismatch `OIDCError`; and in the code flow where the
front-channel token passed the first nonce check but the exchanged token
carries a different nonce (and its issuer matches), the post-exchange
re-check rejects with the nonce-mismatch `OIDCError`. -/
theorem c2_nonce_consistency (c : Client) (s : Session) :
    (∀ (ar : AuthResponse) (tr : TokenResp) (ui : UserinfoResp) (uid : String)
        (info : Userinfo) (calls : List NetCall) (c2 : Client),
        c.callback s (.ok ar) tr ui = (.success uid info, calls, c2) →
        ∃ m tok, c2.id_token = some m ∧ lookupD m ar.state = some tok ∧
          tok.nonce = s.nonce)
  ∧ (∀ (ar : AuthResponse) (tok : IdToken) (tr : TokenResp) (ui : UserinfoResp),
        s.state = ar.state → ar.id_token = some tok → tok.nonce ≠ s.nonce →
        c.callback s (.ok ar) tr ui =
          (.errorValue "Received nonce not the same as expected.", [], c))
  ∧ (∀ (ar : AuthResponse) (ftok xtok : IdToken) (cd r0 : String)
        (rest : List String) (ui : UserinfoResp),
        s.state = ar.state → ar.id_token = some ftok → ftok.nonce = s.nonce →
        lookupD c.behaviour "response_type" = some "code" → ar.code = some cd →
        c.registration_response.redirect_uris = r0 :: rest →
        xtok.iss = c.provider_info_issuer → xtok.nonce ≠ s.nonce →
        (c.callback s (.ok ar) (.ok (some xtok)) ui).1 = .raised "Nonce missmatch") := by
  refine ⟨?_, ?_, ?_⟩
  · intro ar tr ui uid info calls c2 h
    by_cases hst : s.state = ar.state
    · rcases hfr : ar.id_token with _ | ftok
      · have hred : c.callback s (.ok ar) tr ui = callbackExchange c s ar none tr ui := by
          simp [Client.callback, hst, hfr]
        rw [hred] at h
        rcases callbackExchange_success_inv _ _ _ _ _ _ _ _ _ _ h with
          ⟨tok, htr, hn, hc⟩ | ⟨tok, hfront, hn, hc⟩
        · obtain ⟨m, hm, hl⟩ := cacheIdToken_lookup c ar.state tok
          exact ⟨m, tok, hc ▸ hm, hl, hn⟩
        · simp at hfront
      · by_cases hn0 : ftok.nonce = s.nonce
        · have hred : c.callback s (.ok ar) tr ui =
              callbackExchange (c.cacheIdToken ar.state ftok) s ar (some ftok) tr ui := by
            simp [Client.callback, hst, hfr, hn0]
          rw [hred] at h
          rcases callbackExchange_success_inv _ _ _ _ _ _ _ _ _ _ h with
            ⟨tok, htr, hn, hc⟩ | ⟨tok, hfront, hn, hc⟩
          · obtain ⟨m, hm, hl⟩ :=
              cacheIdToken_lookup (c.cacheIdToken ar.state ftok) ar.state tok
            exact ⟨m, tok, hc ▸ hm, hl, hn⟩
          · obtain rfl : ftok = tok := by simpa using hfront
            obtain ⟨m, hm, hl⟩ := cacheIdToken_lookup c ar.state ftok
            exact ⟨m, ftok, hc ▸ hm, hl, hn⟩
        · exfalso
          have hred : c.callback s (.ok ar) tr ui =
              (.errorValue "Received nonce not the same as expected.", [], c) := by
            simp [Client.callback, hst, hfr, hn0]
          rw [hred] at h
          simp at h
    · exfalso
      have hred : c.callback s (.ok ar) tr ui =
          (.errorValue "Received state not the same as expected.", [], c) := by
        simp [Client.callback, hst]
      rw [hred] at h
      simp at h
  · intro ar tok tr ui hst hfr hn
    simp [Client.callback, hst, hfr, hn]
  · intro ar ftok xtok cd r0 rest ui hst hfr hfn hrt hcd hrur hiss hn
    simp [Client.callback, callbackExchange, callbackFinish, hst, hfr, hfn, hrt,
      hcd, hrur, hiss, hn]

/-- Witness for C2: the front-channel nonce rejection and the post-exchange
nonce re-check rejection, at concrete inputs. -/
theorem c2_nonce_consistency_witness :
    Client.callback cSample sSample
        (.ok { state := "S1", id_token := some tokBadNonce, code := none })
        (.ok none) (.err "x") =
      (.errorValue "Received nonce not the same as expected.", [], cSample) ∧
    (Client.callback cSample sSample
        (.ok { state := "S1", id_token := some tokGood, code := some "AC" })
        (.ok (some tokBadNonce)) (.ok uiSample)).1 = .raised "Nonce missmatch" :=
  ⟨(c2_nonce_consistency cSample sSample).2.1
     { state := "S1", id_token := some tokBadNonce, code := none } tokBadNonce
     (.ok none) (.err "x") rfl rfl (by decide),
   (c2_nonce_consistency cSample sSample).2.2
     { state := "S1", id_token := some tokGood, code := some "AC" } tokGood
     tokBadNonce "AC" "https://rp.example/authz_cb" [] (.ok uiSample)
     rfl rfl rfl (by decide) rfl (by decide) (by decide) (by decide)⟩

/-! Claim C3. -/

/-- C3: `Client.callback` rejects with the algorithm-gate `OIDCError` only
when `allow_sign_alg_none` is false and the accepted-candidate (cached) token
was signed with algorithm `"none"` — so a token with any other algorithm is
never rejected by this check, and under `allow_sign_alg_none = true` the gate
never fires; conversely an otherwise-valid `"none"`-signed token is rejected
under the default `false` flag and accepted (flow succeeds) under `true`. -/
theorem c3_alg_none_gate (c : Client) (s : Session) :
    (∀ (parsed : ParseResult) (tr : TokenResp) (ui : UserinfoResp)
        (calls : List NetCall) (c2 : Client),
        c.callback s parsed tr ui = (.raised algNoneMsg, calls, c2) →
        c.allow_sign_alg_none = false ∧
        ∃ ar m tok, parsed = .ok ar ∧ c2.id_token = some m ∧
          lookupD m ar.state = some tok ∧ tok.alg = "none")
  ∧ (∀ (ar : AuthResponse) (tok : IdToken) (rt : String) (tr : TokenResp)
        (ui : UserinfoResp),
        s.state = ar.state → ar.id_token = some tok → tok.nonce = s.nonce →
        lookupD c.behaviour "response_type" = some rt → rt ≠ "code" →
        tok.iss = c.provider_info_issuer → tok.alg = "none" →
        c.allow_sign_alg_none = false →
        c.callback s (.ok ar) tr ui =
          (.raised algNoneMsg, [], c.cacheIdToken ar.state tok))
  ∧ (∀ (ar : AuthResponse) (tok : IdToken) (rt : String) (tr : TokenResp)
        (info : Userinfo),
        s.state = ar.state → ar.id_token = some tok → tok.nonce = s.nonce →
        lookupD c.behaviour "response_type" = some rt → rt ≠ "code" →
        tok.iss = c.provider_info_issuer → tok.alg = "none" →
        c.allow_sign_alg_none = true → tok.sub = info.sub →
        c.callback s (.ok ar) tr (.ok info) =
          (.success (tok.iss ++ ":" ++ tok.sub) info,
           [.userinfoReq ar.state c.userinfo_request_method],
           c.cacheIdToken ar.state tok)) := by
  refine ⟨?_, ?_, ?_⟩
  · intro parsed tr ui calls c2 h
    rcases parsed with e | ar
    · exfalso
      by_cases he : e = "login_required"
      · simp [Client.callback, he] at h
      · simp [Client.callback, he] at h
    · by_cases hst : s.state = ar.state
      · rcases hfr : ar.id_token with _ | ftok
        · have hred : c.callback s (.ok ar) tr ui = callbackExchange c s ar none tr ui := by
            simp [Client.callback, hst, hfr]
          rw [hred] at h
          obtain ⟨hallow, hcase⟩ := callbackExchange_raised_algNone_inv _ _ _ _ _ _ _ _ h
          rcases hcase with ⟨tok, htr, halg, hc⟩ | ⟨tok, hfront, halg, hc⟩
          · obtain ⟨m, hm, hl⟩ := cacheIdToken_lookup c ar.state tok
            exact ⟨hallow, ar, m, tok, rfl, hc ▸ hm, hl, halg⟩
          · simp at hfront
        · by_cases hn0 : ftok.nonce = s.nonce
          · have hred : c.callback s (.ok ar) tr ui =
                callbackExchange (c.cacheIdToken ar.state ftok) s ar (some ftok) tr ui := by
              simp [Client.callback, hst, hfr, hn0]
            rw [hred] at h
            obtain ⟨hallow, hcase⟩ := callbackExchange_raised_algNone_inv _ _ _ _ _ _ _ _ h
            rcases hcase with ⟨tok, htr, halg, hc⟩ | ⟨tok, hfront, halg, hc⟩
            · obtain ⟨m, hm, hl⟩ :=
                cacheIdToken_lookup (c.cacheIdToken ar.state ftok) ar.state tok
              exact ⟨by simpa using hallow, ar, m, tok, rfl, hc ▸ hm, hl, halg⟩
            · obtain rfl : ftok = tok := by simpa using hfront
              obtain ⟨m, hm, hl⟩ := cacheIdToken_lookup c ar.state ftok
              exact ⟨by simpa using hallow, ar, m, ftok, rfl, hc ▸ hm, hl, halg⟩
          · exfalso
            have hred : c.callback s (.ok ar) tr ui =
                (.errorValue "Received nonce not the same as expected.", [], c) := by
              simp [Client.callback, hst, hfr, hn0]
            rw [hred] at h
            simp at h
      · exfalso
        have hred : c.callback s (.ok ar) tr ui =
            (.errorValue "Received state not the same as expected.", [], c) := by
          simp [Client.callback, hst]
        rw [hred] at h
        simp at h
  · intro ar tok rt tr ui hst hfr hn hrt hne hiss halg hallow
    simp [Client.callback, callbackExchange, callbackFinish, algNoneMsg, hst, hfr,
      hn, hrt, hne, hiss, halg, hallow]
  · intro ar tok rt tr info hst hfr hn hrt hne hiss halg hallow hsub
    simp [Client.callback, callbackExchange, callbackFinish, hst, hfr, hn, hrt,
      hne, hiss, halg, hallow, hsub]

/-- An implicit-flow sample client (response type `id_token`). -/
def cImplicit : Client := { cSample with behaviour := [("response_type", "id_token")] }

/-- The implicit-flow sample client with `allow_sign_alg_none` opted in. -/
def cAllowNone : Client := { cImplicit with allow_sign_alg_none := true }

/-- An unsigned (algorithm `"none"`) but otherwise valid sample ID token. -/
def tokNoneAlg : IdToken :=
  { iss := "https://op.example", sub := "sub1", nonce := "N1", alg := "none" }

/-- A sample front-channel response carrying the unsigned token. -/
def arNoneAlg : AuthResponse := { state := "S1", id_token := some tokNoneAlg, code := none }

/-- Witness for C3: the unsigned token is rejected under the default flag and
accepted with the flag set, at concrete inputs. -/
theorem c3_alg_none_gate_witness :
    Client.callback cImplicit sSample (.ok arNoneAlg) (.ok none) (.err "x") =
      (.raised algNoneMsg, [], cImplicit.cacheIdToken arNoneAlg.state tokNoneAlg) ∧
    Client.callback cAllowNone sSample (.ok arNoneAlg) (.ok none) (.ok uiSample) =
      (.success (tokNoneAlg.iss ++ ":" ++ tokNoneAlg.sub) uiSample,
       [.userinfoReq arNoneAlg.state cAllowNone.userinfo_request_method],
       cAllowNone.cacheIdToken arNoneAlg.state tokNoneAlg) :=
  ⟨(c3_alg_none_gate cImplicit sSample).2.1 arNoneAlg tokNoneAlg "id_token"
     (.ok none) (.err "x") rfl rfl rfl (by decide) (by decide) rfl rfl rfl,
   (c3_alg_none_gate cAllowNone sSample).2.2 arNoneAlg tokNoneAlg "id_token"
     (.ok none) uiSample rfl rfl rfl (by decide) (by decide) rfl rfl rfl rfl⟩

/-! Claim C4. -/

theorem callbackExchange_code_calls (c : Client) (s : Session) (ar : AuthResponse)
    (front : Option IdToken) (tr : TokenResp) (ui : UserinfoResp) (cd r0 : String)
    (rest : List String)
    (hrt : lookupD c.behaviour "response_type" = some "code")
    (hcd : ar.code = some cd)
    (hrur : c.registration_response.redirect_uris = r0 :: rest) :
    ∃ restCalls, (callbackExchange c s ar front tr ui).2.1 =
      .tokenReq ar.state cd r0 c.client_id c.client_secret
        c.registration_response.token_endpoint_auth_method :: restCalls := by
  unfold callbackExchange
  rw [hrt]
  dsimp only
  rw [if_pos rfl, hcd]
  dsimp only
  rw [hrur]
  dsimp only
  rcases tr with e | tok'
  · exact ⟨[], rfl⟩
  · rcases tok' with _ | tok
    · exact ⟨[], rfl⟩
    · exact ⟨_, rfl⟩

/-- A hybrid-flow sample client whose response type includes but does not
equal "code". -/
def cHybrid : Client := { cSample with behaviour := [("response_type", "code id_token")] }

/-- C4 counterexample: with the configured response type "code id_token" —
which includes "code" — and an authorization code present, `Client.callback`
issues NO token-endpoint request (the trace holds only the userinfo request),
because the source's exchange condition is equality with the exact string
"code". -/
theorem c4_counterexample :
    ("code id_token").toList.take 4 = "code".toList ∧
    (Client.callback cHybrid sSample
        (.ok { state := "S1", id_token := some tokGood, code := some "AC" })
        (.ok (some tokGood)) (.ok uiSample)).2.1 =
      [.userinfoReq "S1" ""] := by
  decide

/-- C4 (amended): `Client.callback` performs the authorization-code exchange
iff the configured response type is exactly the string "code"; when it does,
the token request carries the response state, the code, the FIRST registered
redirect URI, the client id, the client secret and the registered
token-endpoint auth method; for any other response-type value (including
hybrids such as "code id_token") no token request is ever issued. -/
theorem c4_amended_exchange_iff_exact_code (c : Client) (s : Session) :
    (∀ (ar : AuthResponse) (cd r0 : String) (rest : List String) (tr : TokenResp)
        (ui : UserinfoResp),
        s.state = ar.state →
        (ar.id_token = none ∨ ∃ ft, ar.id_token = some ft ∧ ft.nonce = s.nonce) →
        lookupD c.behaviour "response_type" = some "code" →
        ar.code = some cd → c.registration_response.redirect_uris = r0 :: rest →
        ∃ restCalls, (c.callback s (.ok ar) tr ui).2.1 =
          .tokenReq ar.state cd r0 c.client_id c.client_secret
            c.registration_response.token_endpoint_auth_method :: restCalls)
  ∧ (∀ (parsed : ParseResult) (tr : TokenResp) (ui : UserinfoResp) (rt : String),
        lookupD c.behaviour "response_type" = some rt → rt ≠ "code" →
        ∀ call ∈ (c.callback s parsed tr ui).2.1, call.isTokenReq = false) := by
  constructor
  · intro ar cd r0 rest tr ui hst hfront hrt hcd hrur
    rcases hfront with hfr | ⟨ft, hfr, hfn⟩
    · have hred : c.callback s (.ok ar) tr ui = callbackExchange c s ar none tr ui := by
        simp [Client.callback, hst, hfr]
      rw [hred]
      exact callbackExchange_code_calls c s ar none tr ui cd r0 rest hrt hcd hrur
    · have hred : c.callback s (.ok ar) tr ui =
          callbackExchange (c.cacheIdToken ar.state ft) s ar (some ft) tr ui := by
        simp [Client.callback, hst, hfr, hfn]
      obtain ⟨restCalls, hcalls⟩ :=
        callbackExchange_code_calls (c.cacheIdToken ar.state ft) s ar (some ft)
          tr ui cd r0 rest (by simpa using hrt) hcd (by simpa using hrur)
      refine ⟨restCalls, ?_⟩
      rw [hred, hcalls]
      simp
  · intro parsed tr ui rt hrt hne
    rcases parsed with e | ar
    · by_cases he : e = "login_required" <;> simp [Client.callback, he]
    · by_cases hst : s.state = ar.state
      · rcases hfr : ar.id_token with _ | ftok
        · have hred : c.callback s (.ok ar) tr ui = callbackExchange c s ar none tr ui := by
            simp [Client.callback, hst, hfr]
          rw [hred]
          exact callbackExchange_calls_noToken c s ar none tr ui rt hrt hne
        · by_cases hn0 : ftok.nonce = s.nonce
          · have hred : c.callback s (.ok ar) tr ui =
                callbackExchange (c.cacheIdToken ar.state ftok) s ar (some ftok) tr ui := by
              simp [Client.callback, hst, hfr, hn0]
            rw [hred]
            exact callbackExchange_calls_noToken _ s ar _ tr ui rt
              (by simpa using hrt) hne
          · have hred : c.callback s (.ok ar) tr ui =
                (.errorValue "Received nonce not the same as expected.", [], c) := by
              simp [Client.callback, hst, hfr, hn0]
            rw [hred]
            simp
      · have hred : c.callback s (.ok ar) tr ui =
            (.errorValue "Received state not the same as expected.", [], c) := by
          simp [Client.callback, hst]
        rw [hred]
        simp

/-- Witness for the amended C4: a concrete exact-"code" run issues the token
request with the registered parameters, and a concrete hybrid run issues no
token request. -/
theorem c4_amended_exchange_iff_exact_code_witness :
    (∃ restCalls, (Client.callback cSample sSample
        (.ok { state := "S1", id_token := none, code := some "AC" })
        (.ok (some tokGood)) (.ok uiSample)).2.1 =
      .tokenReq "S1" "AC" "https://rp.example/authz_cb" "CID" "CSEC"
        "client_secret_basic" :: restCalls) ∧
    (∀ call ∈ (Client.callback cHybrid sSample
        (.ok { state := "S1", id_token := some tokGood, code := some "AC" })
        (.ok (some tokGood)) (.ok uiSample)).2.1, call.isTokenReq = false) :=
  ⟨(c4_amended_exchange_iff_exact_code cSample sSample).1
     { state := "S1", id_token := none, code := some "AC" } "AC"
     "https://rp.example/authz_cb" [] (.ok (some tokGood)) (.ok uiSample)
     rfl (Or.inl rfl) (by decide) rfl rfl,
   (c4_amended_exchange_iff_exact_code cHybrid sSample).2
     (.ok { state := "S1", id_token := some tokGood, code := some "AC" })
     (.ok (some tokGood)) (.ok uiSample) "code id_token" (by decide) (by decide)⟩

/-! Claim C5. -/

/-- C5 counterexample: with response type "code" and a successful token
response that carries no `id_token` entry, `Client.callback` does NOT
terminate with the missing-ID-token `OIDCError`; the access of
`atresp['id_token']` raises an uncaught `KeyError` (after the token request
was issued, with the cache untouched). -/
theorem c5_counterexample :
    Client.callback cSample sSample
        (.ok { state := "S1", id_token := none, code := some "AC" })
        (.ok none) (.err "x") =
      (.exc "KeyError: id_token",
       [.tokenReq "S1" "AC" "https://rp.example/authz_cb" "CID" "CSEC"
          "client_secret_basic"], cSample) ∧
    Outcome.exc "KeyError: id_token" ≠
      Outcome.raised "Invalid response: no IdToken" := by
  decide

/-- C5 (amended): the missing-ID-token `OIDCError` ("Invalid response: no
IdToken") is raised exactly when the response type is not "code" and no
front-channel ID token was present; in the code path, a successful token
response lacking an `id_token` entry instead raises an uncaught `KeyError`
after the token request, leaving the cache entry unmodified. -/
theorem c5_amended_missing_idtoken (c : Client) (s : Session) :
    (∀ (ar : AuthResponse) (rt : String) (tr : TokenResp) (ui : UserinfoResp),
        s.state = ar.state → ar.id_token = none →
        lookupD c.behaviour "response_type" = some rt → rt ≠ "code" →
        c.callback s (.ok ar) tr ui =
          (.raised "Invalid response: no IdToken", [], c))
  ∧ (∀ (ar : AuthResponse) (cd r0 : String) (rest : List String) (ui : UserinfoResp),
        s.state = ar.state → ar.id_token = none →
        lookupD c.behaviour "response_type" = some "code" → ar.code = some cd →
        c.registration_response.redirect_uris = r0 :: rest →
        c.callback s (.ok ar) (.ok none) ui =
          (.exc "KeyError: id_token",
           [.tokenReq ar.state cd r0 c.client_id c.client_secret
              c.registration_response.token_endpoint_auth_method], c)) := by
  constructor
  · intro ar rt tr ui hst hfr hrt hne
    simp [Client.callback, callbackExchange, callbackFinish, hst, hfr, hrt, hne]
  · intro ar cd r0 rest ui hst hfr hrt hcd hrur
    simp [Client.callback, callbackExchange, hst, hfr, hrt, hcd, hrur]

/-- Witness for the amended C5: a concrete implicit-flow run raising the
missing-ID-token error and a concrete code-flow run raising `KeyError`. -/
theorem c5_amended_missing_idtoken_witness :
    Client.callback cImplicit sSample
        (.ok { state := "S1", id_token := none, code := none })
        (.ok none) (.err "x") =
      (.raised "Invalid response: no IdToken", [], cImplicit) ∧
    Client.callback cSample sSample
        (.ok { state := "S1", id_token := none, code := some "ZZ" })
        (.ok none) (.err "x") =
      (.exc "KeyError: id_token",
       [.tokenReq "S1" "ZZ" "https://rp.example/authz_cb" "CID" "CSEC"
          "client_secret_basic"], cSample) :=
  ⟨(c5_amended_missing_idtoken cImplicit sSample).1
     { state := "S1", id_token := none, code := none } "id_token"
     (.ok none) (.err "x") rfl rfl (by decide) (by decide),
   (c5_amended_missing_idtoken cSample sSample).2
     { state := "S1", id_token := none, code := some "ZZ" } "ZZ"
     "https://rp.example/authz_cb" [] (.err "x") rfl rfl (by decide) rfl rfl⟩

/-! Claim C6. -/

/-- A sample oracle for the provisioning network operations. -/
def webSample : Web :=
  { discovery := fun _ => "https://op.example",
    providerConfig := fun _ =>
      { issuer := "https://op.example",
        registration_endpoint := "https://op.example/registration" },
    register := fun _ _ =>
      { client_id := "CID", client_secret := "CSEC",
        registration :=
          { redirect_uris := ["https://rp.example/authz_cb"],
            token_endpoint_auth_method := "client_secret_basic" } } }

/-- A well-formed configuration of shape `{provider_info, client_registration}`. -/
def confPIcr : ClientConf :=
  { behaviour := some [("response_type", "code")], verify_ssl := none,
    userinfo_request_method := none, allow := none, client_info := none,
    srv_discovery_url := none,
    provider_info := some
      { issuer := "https://op.example",
        registration_endpoint := some "https://op.example/registration" },
    client_registration := some
      { redirect_uris := ["https://rp.example/cb"],
        token_endpoint_auth_method := "client_secret_basic" },
    extraKeys := [] }

/-- A well-formed configuration of shape `{srv_discovery_url, client_registration}`. -/
def confURLcr : ClientConf :=
  { confPIcr with provider_info := none,
                  srv_discovery_url := some "https://op.example/.well-known" }

/-- C6 (code bug): for BOTH well-formed configurations that supply an
already-completed registration — `{provider_info, client_registration}` and
`{srv_discovery_url, client_registration}` — `create_client` raises
`KeyError('client_info')` instead of returning a client, because its final
`get_path` call reads `kwargs['client_info']`, a key the branch guard
guarantees to be absent; the path index stays empty, and in the discovery
variant the provider-configuration fetch has already happened. -/
theorem c6_client_registration_branches_raise :
    create_client webSample [] "" confPIcr = (.keyErr "client_info", [], []) ∧
    create_client webSample [] "" confURLcr =
      (.keyErr "client_info",
       [.providerConfig "https://op.example/.well-known"], []) := by
  constructor <;> rfl

/-! Claim C7. -/

/-- The `{client_info, srv_discovery_url}` scenario configuration of the
claim: discovery URL `https://op.example/.well-known` and registered redirect
URI `https://rp.example/cb`. -/
def conf7 : ClientConf :=
  { behaviour := some [("response_type", "code")], verify_ssl := none,
    userinfo_request_method := none, allow := none,
    client_info := some { redirect_uris := ["https://rp.example/cb"], extraFields := [] },
    srv_discovery_url := some "https://op.example/.well-known",
    provider_info := none, client_registration := none, extraKeys := [] }

/-- C7 counterexample: in the claim's scenario, the path index after
`create_client` has NO entry under `"/cb"`; the entry is keyed by `"cb"` (the
leading slash is stripped by `p.path[1:]`) and maps to the supplied
`srv_discovery_url`, not to the resolved issuer `https://op.example`. -/
theorem c7_counterexample :
    lookupD (create_client webSample [] "" conf7).2.2 "/cb" = none ∧
    lookupD (create_client webSample [] "" conf7).2.2 "cb" =
      some "https://op.example/.well-known" ∧
    ("https://op.example/.well-known" : String) ≠ "https://op.example" := by
  decide

/-- C7 (amended): for the `{client_info, srv_discovery_url}` shape,
`create_client` fetches the provider configuration from the discovery URL
(no webfinger call) and registers with the supplied `client_info`, and each
registered redirect URI's path WITHOUT its leading slash is recorded in the
path index mapped to the `srv_discovery_url` itself (not the resolved
issuer). -/
theorem c7_amended_path_records_discovery_url (web : Web)
    (path : List (String × String)) (userid : String) (conf : ClientConf)
    (beh : List (String × String)) (cinfo : ClientInfo) (durl : String)
    (hb : conf.behaviour = some beh) (hv : conf.verify_ssl = none)
    (hci : conf.client_info = some cinfo) (hurl : conf.srv_discovery_url = some durl)
    (hpi : conf.provider_info = none) (hcr : conf.client_registration = none)
    (hex : conf.extraKeys = []) :
    (create_client web path userid conf).2.1 =
      [.providerConfig durl,
       .register (web.providerConfig durl).registration_endpoint cinfo] ∧
    ∀ uri ∈ cinfo.redirect_uris,
      lookupD (create_client web path userid conf).2.2 (pyDrop1 (urlPath uri)) =
        some durl := by
  constructor
  · simp [create_client, hb, hv, hci, hurl, hpi, hcr, hex]
  · intro uri hmem
    simp only [create_client, hb, hv, hci, hurl, hpi, hcr, hex]
    simp only [Option.isSome_none, Bool.false_eq_true, if_false]
    rw [get_path_lookup]
    rw [if_pos (List.mem_map_of_mem _ hmem)]

/-- Witness for the amended C7 at the claim's concrete scenario. -/
theorem c7_amended_path_records_discovery_url_witness :
    (create_client webSample [] "" conf7).2.1 =
      [.providerConfig "https://op.example/.well-known",
       .register "https://op.example/registration"
         { redirect_uris := ["https://rp.example/cb"], extraFields := [] }] ∧
    lookupD (create_client webSample [] "" conf7).2.2
        (pyDrop1 (urlPath "https://rp.example/cb")) =
      some "https://op.example/.well-known" := by
  obtain ⟨h1, h2⟩ := c7_amended_path_records_discovery_url webSample [] "" conf7
    [("response_type", "code")]
    { redirect_uris := ["https://rp.example/cb"], extraFields := [] }
    "https://op.example/.well-known" rfl rfl rfl rfl rfl rfl rfl
  exact ⟨h1, h2 "https://rp.example/cb" (by decide)⟩

/-! Claim C8. -/

theorem dynamic_client_preserves (sha256hex : String → String) (web : Web)
    (reg : OIDCClients) (userid i : String) (c' : Client)
    (h' : lookupD reg.client i = some c') :
    lookupD ((reg.dynamic_client sha256hex web userid).2.2).client i = some c' := by
  cases hl : lookupD reg.client (web.discovery userid) with
  | some c0 =>
    simp only [OIDCClients.dynamic_client, hl]
    exact h'
  | none =>
    cases hdef : reg.defaultClientInfo with
    | none =>
      simp only [OIDCClients.dynamic_client, hl, hdef]
      exact h'
    | some cinfo =>
      simp only [OIDCClients.dynamic_client, hl, hdef]
      have hne : i ≠ web.discovery userid := by
        intro hEq
        rw [hEq, hl] at h'
        cases h'
      rw [lookupD_assocSet_ne _ _ _ _ hne]
      exact h'

theorem getitem_preserves (sha256hex : String → String) (web : Web)
    (reg : OIDCClients) (item i : String) (c' : Client)
    (h' : lookupD reg.client i = some c') :
    lookupD ((reg.getitem sha256hex web item).2.2).client i = some c' := by
  cases hl : lookupD reg.client item with
  | some c0 =>
    simp only [OIDCClients.getitem, hl]
    exact h'
  | none =>
    simp only [OIDCClients.getitem, hl]
    exact dynamic_client_preserves sha256hex web reg item i c' h'

/-- C8: resolution is idempotent per issuer — when the registry already
caches a client under an issuer, `__getitem__` returns that client with no
network call and `dynamic_client` (whose discovery yields that issuer)
returns it after only the webfinger call, both leaving the registry
unchanged; and every resolution step preserves existing issuer bindings, so
an issuer key maps to at most one client for the registry's lifetime. -/
theorem c8_registry_idempotent (sha256hex : String → String) (web : Web)
    (reg : OIDCClients) (issuer : String) (c : Client)
    (h : lookupD reg.client issuer = some c) :
    reg.getitem sha256hex web issuer = (.ok c, [], reg) ∧
    (∀ userid, web.discovery userid = issuer →
        reg.dynamic_client sha256hex web userid = (.ok c, [.webfinger userid], reg)) ∧
    (∀ (reg' : OIDCClients) (userid i : String) (c' : Client),
        lookupD reg'.client i = some c' →
        lookupD ((reg'.dynamic_client sha256hex web userid).2.2).client i = some c') ∧
    (∀ (reg' : OIDCClients) (item i : String) (c' : Client),
        lookupD reg'.client i = some c' →
        lookupD ((reg'.getitem sha256hex web item).2.2).client i = some c') := by
  refine ⟨?_, ?_, ?_, ?_⟩
  · simp [OIDCClients.getitem, h]
  · intro userid hd
    simp [OIDCClients.dynamic_client, hd, h]
  · intro reg' userid i c' h'
    exact dynamic_client_preserves sha256hex web reg' userid i c' h'
  · intro reg' item i c' h'
    exact getitem_preserves sha256hex web reg' item i c' h'

/-- A stand-in hash-hexdigest oracle for witnesses. -/
def shaSample : String → String := fun s => s ++ "#sha256hex"

/-- The default-profile redirect-URI template `{base}/{iss}`. -/
def cinfoTemplate : ClientInfo :=
  { redirect_uris := ["\x7bbase\x7d/\x7biss\x7d"], extraFields := [] }

/-- A sample registry caching `cSample` under its issuer. -/
def regSample : OIDCClients :=
  { client := [("https://op.example", cSample)], seed := "SEEDBYTES",
    path := [], base_url := "https://rp.example",
    defaultClientInfo := some cinfoTemplate,
    defaultBehaviour := some [("response_type", "code")] }

/-- Witness for C8 at a concrete cached issuer. -/
theorem c8_registry_idempotent_witness :
    regSample.getitem shaSample webSample "https://op.example" =
      (.ok cSample, [], regSample) ∧
    regSample.dynamic_client shaSample webSample "user@example.org" =
      (.ok cSample, [.webfinger "user@example.org"], regSample) := by
  obtain ⟨h1, h2, h3, h4⟩ := c8_registry_idempotent shaSample webSample regSample
    "https://op.example" cSample (by decide)
  exact ⟨h1, h2 "user@example.org" rfl⟩

/-! Claim C9. -/

/-- Replace a `client_info`'s redirect-URI list, keeping its other fields
(the `reg_args['redirect_uris'] = …` assignment on the shallow copy). -/
def ClientInfo.withRuris (ci : ClientInfo) (rs : List String) : ClientInfo :=
  { ci with redirect_uris := rs }

/-- C9: the redirect-URI list registered by `dynamic_client` for an unseen
issuer is exactly the specification's derivation — each default-profile
template URI with `base` replaced by the registry's base URL and `iss` by
the per-issuer tag `hex(SHA-256(seed ++ issuer))` — and it is a
deterministic function of `(seed, issuer, base_url)` and the template:
any two registries agreeing on those derive byte-identical lists. -/
theorem c9_redirect_uri_derivation (sha256hex : String → String) (web : Web)
    (reg : OIDCClients) (userid issuer : String) (cinfo : ClientInfo)
    (hd : web.discovery userid = issuer)
    (hnew : lookupD reg.client issuer = none)
    (hcinfo : reg.defaultClientInfo = some cinfo) :
    (reg.dynamic_client sha256hex web userid).2.1 =
      [.webfinger userid, .providerConfig issuer,
       .register (web.providerConfig issuer).registration_endpoint
         (cinfo.withRuris (deriveRedirectUrisSpec sha256hex reg.seed issuer
           reg.base_url cinfo.redirect_uris))] ∧
    (∀ (reg2 : OIDCClients) (userid2 : String) (cinfo2 : ClientInfo),
        web.discovery userid2 = issuer → lookupD reg2.client issuer = none →
        reg2.defaultClientInfo = some cinfo2 → reg2.seed = reg.seed →
        reg2.base_url = reg.base_url →
        cinfo2.redirect_uris = cinfo.redirect_uris →
        registeredUris (reg2.dynamic_client sha256hex web userid2).2.1 =
          registeredUris (reg.dynamic_client sha256hex web userid).2.1) := by
  have hmain : ∀ (r : OIDCClients) (u : String) (ci : ClientInfo),
      web.discovery u = issuer → lookupD r.client issuer = none →
      r.defaultClientInfo = some ci →
      (r.dynamic_client sha256hex web u).2.1 =
        [.webfinger u, .providerConfig issuer,
         .register (web.providerConfig issuer).registration_endpoint
           (ci.withRuris (deriveRedirectUrisSpec sha256hex r.seed issuer
             r.base_url ci.redirect_uris))] := by
    intro r u ci hdu hn hci
    have hn' : lookupD r.client (web.discovery u) = none := by rw [hdu]; exact hn
    simp only [OIDCClients.dynamic_client, hn', hci]
    simp [hdu, deriveRedirectUrisSpec, ClientInfo.withRuris]
  refine ⟨hmain reg userid cinfo hd hnew hcinfo, ?_⟩
  intro reg2 userid2 cinfo2 hd2 hn2 hci2 hseed hbase hruris
  rw [hmain reg2 userid2 cinfo2 hd2 hn2 hci2, hmain reg userid cinfo hd hnew hcinfo]
  simp [registeredUris, deriveRedirectUrisSpec, ClientInfo.withRuris, hseed,
    hbase, hruris]

/-- An empty-registry sample for C9's witness. -/
def regEmpty : OIDCClients := { regSample with client := [] }

/-- Witness for C9 at a concrete unseen issuer. -/
theorem c9_redirect_uri_derivation_witness :
    (regEmpty.dynamic_client shaSample webSample "user@example.org").2.1 =
      [.webfinger "user@example.org", .providerConfig "https://op.example",
       .register "https://op.example/registration"
         (cinfoTemplate.withRuris (deriveRedirectUrisSpec shaSample "SEEDBYTES"
           "https://op.example" "https://rp.example" cinfoTemplate.redirect_uris))] :=
  (c9_redirect_uri_derivation shaSample webSample regEmpty "user@example.org"
    "https://op.example" cinfoTemplate rfl rfl rfl).1

end PyoidcRP
